import Mathlib

/-!
Shallow embedding of `src/dynamic_vs_static_dispatch/rust/dynamic_and_static_dispatch.rs`.

The source program defines a trait `Operation` with methods `calculate` and
`name`, two fieldless structs `Add` and `Mul` implementing it, a dynamic
dispatch invoker `do_the_math_dynamically` taking `&dyn Operation`, a static
dispatch invoker `do_the_math_statically` generic over `T: Operation`, and a
`main` that makes four fixed calls.  Operands are Rust `f64` values; they are
modelled below by an executable IEEE-754 binary64 datum type `F64`, with
finite nonzero values carried as integer multiples of the minimum subnormal
`2 ^ (-1074)` and arithmetic given by exact integer computation followed by
round-to-nearest, ties-to-even.  Output is modelled as the list of strings the
program writes to standard output, one list element per `println!` call.
-/

set_option exponentiation.threshold 10000

namespace Dispatch

/-- IEEE-754 binary64 data: one NaN datum (payloads are not observable in this
program), signed infinities, signed zeros, and finite nonzero values.  A value
`num n` denotes the real number `n * 2 ^ (-1074)`; every finite binary64
number is such a multiple, `2 ^ (-1074)` being the least subnormal magnitude.
The sign `true` means negative. -/
inductive F64 where
  | nan : F64
  | inf (sign : Bool) : F64
  | zero (sign : Bool) : F64
  | num (n : ℤ) : F64
deriving DecidableEq

/-- A binary64 datum is finite when it is neither NaN nor an infinity. -/
def F64.isFinite : F64 → Bool
  | .nan => false
  | .inf _ => false
  | _ => true

/-- Round `a / 2 ^ d` to the nearest natural number, ties to even. -/
def rnneNat (a d : ℕ) : ℕ :=
  if d = 0 then a
  else
    let q := a / 2 ^ d
    let r := a % 2 ^ d
    let h := 2 ^ (d - 1)
    if r < h then q else if h < r then q + 1 else if q % 2 = 0 then q else q + 1

/-- Floor of the base-2 logarithm of a positive natural number, computed by
binary decomposition of the exponent (correct for all `n < 2 ^ 8192`, far
beyond any intermediate value produced by binary64 addition or
multiplication). -/
def flog2 (n : ℕ) : ℕ :=
  (List.foldl (fun (p : ℕ × ℕ) (k : ℕ) => if 2 ^ k ≤ p.1 then (p.1 / 2 ^ k, p.2 + k) else p)
    (n, 0) [4096, 2048, 1024, 512, 256, 128, 64, 32, 16, 8, 4, 2, 1]).2

/-- Round the real number `N * 2 ^ (-shift) * 2 ^ (-1074)` to the nearest
IEEE-754 binary64 datum, ties to even, overflowing to an infinity at
magnitude `2 ^ 1024` and underflowing to a signed zero.  The rounding grid in
units of `2 ^ (-1074)` consists of the naturals below `2 ^ 53` (subnormals and
low normals) together with `m * 2 ^ e` for `2 ^ 52 ≤ m < 2 ^ 53` (higher
binades); the grid step around a magnitude with top bit position `L` is
`2 ^ (L - 52)`. -/
def roundDy (N : ℤ) (shift : ℕ) : F64 :=
  if N = 0 then F64.zero false
  else
    let s := decide (N < 0)
    let a := N.natAbs
    let L := flog2 a
    let R :=
      if L < 53 + shift then rnneNat a shift
      else rnneNat a (shift + (L - shift - 52)) * 2 ^ (L - shift - 52)
    if R = 0 then F64.zero s
    else if 2 ^ 2098 ≤ R then F64.inf s
    else F64.num (if s then -(R : ℤ) else (R : ℤ))

/-- IEEE-754 binary64 addition (round to nearest, ties to even): NaN
propagates, opposite infinities give NaN, like infinities and an infinity
against a finite value give that infinity, `(+0) + (-0) = +0`, zeros are
exact identities on finite values, and finite values are added exactly and
then rounded (an exact zero sum is `+0` in this rounding mode). -/
def f64add : F64 → F64 → F64
  | F64.nan, _ => F64.nan
  | _, F64.nan => F64.nan
  | F64.inf s, F64.inf t => if s = t then F64.inf s else F64.nan
  | F64.inf s, _ => F64.inf s
  | _, F64.inf t => F64.inf t
  | F64.zero s, F64.zero t => if s = t then F64.zero s else F64.zero false
  | F64.zero _, F64.num m => F64.num m
  | F64.num n, F64.zero _ => F64.num n
  | F64.num n, F64.num m => roundDy (n + m) 0

/-- IEEE-754 binary64 multiplication (round to nearest, ties to even): NaN
propagates, an infinity times a zero is NaN, infinities otherwise give an
infinity with the exclusive-or of the operand signs, zeros give a zero with
the exclusive-or of the operand signs, and finite values are multiplied
exactly and then rounded; `num n * num m` denotes
`(n * m) * 2 ^ (-2148)`, hence the extra scaling shift of `1074`. -/
def f64mul : F64 → F64 → F64
  | F64.nan, _ => F64.nan
  | _, F64.nan => F64.nan
  | F64.inf s, F64.inf t => F64.inf (Bool.xor s t)
  | F64.inf _, F64.zero _ => F64.nan
  | F64.zero _, F64.inf _ => F64.nan
  | F64.inf s, F64.num m => F64.inf (Bool.xor s (decide (m < 0)))
  | F64.num n, F64.inf t => F64.inf (Bool.xor (decide (n < 0)) t)
  | F64.zero s, F64.zero t => F64.zero (Bool.xor s t)
  | F64.zero s, F64.num m => F64.zero (Bool.xor s (decide (m < 0)))
  | F64.num n, F64.zero t => F64.zero (Bool.xor (decide (n < 0)) t)
  | F64.num n, F64.num m => roundDy (n * m) 1074

/-- The binary64 datum of an integer literal such as `1.0` or `20.0` of the
source: zero gives `+0`, and a nonzero integer `k` (all integers appearing in
this program are exactly representable) gives `k * 2 ^ 1074` units of
`2 ^ (-1074)`. -/
def f64ofInt (k : ℤ) : F64 :=
  if k = 0 then F64.zero false else F64.num (k * ((2 ^ 1074 : ℕ) : ℤ))

/-- Modelled from the spec: the program prints operands and results with the
platform's default float-to-string conversion (Rust's `Display` for `f64`),
which is not part of the repository's source.  The spec fixes this rendering
on the values the program actually prints: integral values render as their
plain decimal digits with no fractional part (`1`, `2`, `4`, `5`, `3`, `20`);
Rust likewise renders NaN as `NaN` and the infinities as `inf` / `-inf`.  The
rendering of non-integral finite values (shortest round-tripping decimal in
Rust) is not constrained by the spec or exercised by the program; here those
values fall back to an exact scaled-integer notation. -/
def fmtF64 : F64 → String
  | F64.nan => "NaN"
  | F64.inf s => if s then "-inf" else "inf"
  | F64.zero s => if s then "-0" else "0"
  | F64.num n =>
      if n % ((2 ^ 1074 : ℕ) : ℤ) = 0 then toString (n / ((2 ^ 1074 : ℕ) : ℤ))
      else toString n ++ "p-1074"

/-- The `Operation` trait of the source: `calculate` computes a binary64
result from two binary64 operands and `name` yields the display token.  A
Rust trait becomes a Lean type class; `&self` becomes the explicit first
argument. -/
class Operation (T : Type) where
  calculate : T → F64 → F64 → F64
  name : T → String

/-- The fieldless struct `Add` of the source. -/
inductive Add where
  | mk : Add

/-- The fieldless struct `Mul` of the source. -/
inductive Mul where
  | mk : Mul

/-- The `impl Operation for Add` block: `calculate` returns `a + b` and
`name` returns the string `" + "`. -/
instance instOperationAdd : Operation Add where
  calculate _ a b := f64add a b
  name _ := " + "

/-- The `impl Operation for Mul` block: `calculate` returns `a * b` and
`name` returns the string `" * "`. -/
instance instOperationMul : Operation Mul where
  calculate _ a b := f64mul a b
  name _ := " * "

/-- One `println!` call: a single formatted write of the given text followed
by a newline, modelled as a one-element list of emitted output. -/
def println (s : String) : List String := [s ++ "\n"]

/-- A `&dyn Operation` trait object: the receiver erased behind its method
table, so the invoker sees only a `calculate` function and a `name` token. -/
structure DynOperation where
  calculate : F64 → F64 → F64
  name : String

/-- The unsizing coercion from `&T` with `T: Operation` to `&dyn Operation`
performed at each call site of `do_the_math_dynamically` in `main`. -/
def toDyn {T : Type} [Operation T] (op : T) : DynOperation :=
  ⟨Operation.calculate op, Operation.name op⟩

/-- The source's `do_the_math_dynamically(op: &dyn Operation, a: f64, b: f64)`:
binds `result = op.calculate(a, b)` and prints
`"Dynamic dispatch: {a}{op.name()}{b} = {result}"`. -/
def do_the_math_dynamically (op : DynOperation) (a b : F64) : List String :=
  let result := op.calculate a b
  println ("Dynamic dispatch: " ++ (fmtF64 a ++ (op.name ++ (fmtF64 b ++ (" = " ++ fmtF64 result)))))

/-- The source's `do_the_math_statically<T: Operation>(op: &T, a: f64, b: f64)`:
binds `result = op.calculate(a, b)` and prints
`"Static dispatch: {a}{op.name()}{b} = {result}"`. -/
def do_the_math_statically {T : Type} [Operation T] (op : T) (a b : F64) : List String :=
  let result := Operation.calculate op a b
  println ("Static dispatch: " ++ (fmtF64 a ++ (Operation.name op ++ (fmtF64 b ++ (" = " ++ fmtF64 result)))))

/-- The source's `main`: four invocations in fixed order — dynamic `Add` on
`(1.0, 2.0)`, dynamic `Mul` on `(4.0, 5.0)`, static `Add` on `(1.0, 2.0)`,
static `Mul` on `(4.0, 5.0)` — with the emitted output concatenated in
program order. -/
def main : List String :=
  do_the_math_dynamically (toDyn Add.mk) (f64ofInt 1) (f64ofInt 2) ++
  (do_the_math_dynamically (toDyn Mul.mk) (f64ofInt 4) (f64ofInt 5) ++
  (do_the_math_statically Add.mk (f64ofInt 1) (f64ofInt 2) ++
  do_the_math_statically Mul.mk (f64ofInt 4) (f64ofInt 5)))

/-- Outcome of one process run: the standard output (as the list of writes)
and the exit code. -/
structure ProcResult where
  stdout : List String
  exitCode : ℕ

/-- One run of the compiled program in an invocation context.  The operating
system hands every process an argument vector and an environment; the
source's `fn main()` takes no parameters and calls neither `std::env::args`
nor `std::env::var` nor any file input, so the run ignores both, writes
`main`'s output, and exits with code 0 (Rust returns `()` from `main`). -/
def run (_args : List String) (_env : List (String × String)) : ProcResult :=
  ⟨main, 0⟩

/-- Binary64 addition is commutative: the rounded exact sum inherits
commutativity from integer addition, and every special-value row of the
operation table is symmetric. -/
theorem f64add_comm (a b : F64) : f64add a b = f64add b a := by
  cases a <;> cases b <;> try rfl
  all_goals first
    | (rename_i s t; cases s <;> cases t <;> rfl)
    | exact congrArg (fun z => roundDy z 0) (Int.add_comm _ _)

/-- Binary64 multiplication is commutative: the rounded exact product
inherits commutativity from integer multiplication, and the sign of every
special-value row is an exclusive-or of the operand signs. -/
theorem f64mul_comm (a b : F64) : f64mul a b = f64mul b a := by
  cases a <;> cases b <;> try rfl
  all_goals first
    | (rename_i s t; cases s <;> cases t <;> rfl)
    | exact congrArg F64.inf (Bool.xor_comm _ _)
    | exact congrArg F64.zero (Bool.xor_comm _ _)
    | exact congrArg (fun z => roundDy z 1074) (Int.mul_comm _ _)

/-- Claim C1: for all finite binary64 operands `a` and `b`, `Add`'s
`calculate` returns the IEEE-754 binary64 sum `a + b` and `Mul`'s `calculate`
returns the IEEE-754 binary64 product `a * b`. -/
theorem add_mul_compute_is_ieee (a b : F64)
    (_ha : a.isFinite = true) (_hb : b.isFinite = true) :
    Operation.calculate Add.mk a b = f64add a b ∧
      Operation.calculate Mul.mk a b = f64mul a b :=
  ⟨rfl, rfl⟩

/-- Witness for C1 at the program's own operands `(1.0, 2.0)`. -/
theorem add_mul_compute_is_ieee_witness :
    (f64ofInt 1).isFinite = true ∧ (f64ofInt 2).isFinite = true ∧
      (Operation.calculate Add.mk (f64ofInt 1) (f64ofInt 2) =
          f64add (f64ofInt 1) (f64ofInt 2) ∧
        Operation.calculate Mul.mk (f64ofInt 1) (f64ofInt 2) =
          f64mul (f64ofInt 1) (f64ofInt 2)) :=
  ⟨by decide, by decide,
    add_mul_compute_is_ieee (f64ofInt 1) (f64ofInt 2) (by decide) (by decide)⟩

/-- Claim C2: running the program with no arguments writes exactly four
newline-terminated lines, in the fixed order dynamic-Add(1.0, 2.0),
dynamic-Mul(4.0, 5.0), static-Add(1.0, 2.0), static-Mul(4.0, 5.0), with the
literal contents `Dynamic dispatch: 1 + 2 = 3`, `Dynamic dispatch: 4 * 5 = 20`,
`Static dispatch: 1 + 2 = 3`, `Static dispatch: 4 * 5 = 20`. -/
theorem main_output_literal :
    main = ["Dynamic dispatch: 1 + 2 = 3\n", "Dynamic dispatch: 4 * 5 = 20\n",
      "Static dispatch: 1 + 2 = 3\n", "Static dispatch: 4 * 5 = 20\n"] := by
  decide

/-- Claim C3: for each variant (`Add` and `Mul`) and all binary64 operands,
the static invoker and the dynamic invoker (called through the trait object
built from the same variant) compute the identical result value and symbol,
and their emitted lines differ only in the literal prefix
`Static dispatch: ` versus `Dynamic dispatch: `. -/
theorem static_dispatch_refines_dynamic (a b : F64) :
    (toDyn Add.mk).calculate a b = Operation.calculate Add.mk a b ∧
    (toDyn Mul.mk).calculate a b = Operation.calculate Mul.mk a b ∧
    (toDyn Add.mk).name = Operation.name Add.mk ∧
    (toDyn Mul.mk).name = Operation.name Mul.mk ∧
    (∃ s : String,
      do_the_math_dynamically (toDyn Add.mk) a b = ["Dynamic dispatch: " ++ s] ∧
      do_the_math_statically Add.mk a b = ["Static dispatch: " ++ s]) ∧
    (∃ s : String,
      do_the_math_dynamically (toDyn Mul.mk) a b = ["Dynamic dispatch: " ++ s] ∧
      do_the_math_statically Mul.mk a b = ["Static dispatch: " ++ s]) := by
  refine ⟨rfl, rfl, rfl, rfl,
    ⟨fmtF64 a ++ (" + " ++ (fmtF64 b ++ (" = " ++ fmtF64 (f64add a b)))) ++ "\n", ?_, ?_⟩,
    ⟨fmtF64 a ++ (" * " ++ (fmtF64 b ++ (" = " ++ fmtF64 (f64mul a b)))) ++ "\n", ?_, ?_⟩⟩ <;>
    (simp [do_the_math_dynamically, do_the_math_statically, println, toDyn,
      String.append_assoc]; try rfl)

/-- Claim C4: the symbol operation is constant on each variant: `Add`'s
`name` always returns exactly `" + "` and `Mul`'s `name` always returns
exactly `" * "`, each a fixed non-empty string with the surrounding
spaces. -/
theorem symbol_stable :
    Operation.name Add.mk = " + " ∧ Operation.name Mul.mk = " * " ∧
      Operation.name Add.mk ≠ "" ∧ Operation.name Mul.mk ≠ "" := by
  refine ⟨rfl, rfl, ?_, ?_⟩ <;> decide

/-- Claim C5: for every conforming variant (any trait object for the dynamic
invoker; each of the two variants for the static one) and all binary64
operands, the invoker emits exactly the one newline-terminated line
`<prefix><a><symbol><b> = <result>` where the result is the variant's
`calculate` on the operands and the symbol is the variant's `name`. -/
theorem invoker_emits_one_formatted_line (op : DynOperation) (a b : F64) :
    do_the_math_dynamically op a b =
      [("Dynamic dispatch: " ++
        (fmtF64 a ++ (op.name ++ (fmtF64 b ++ (" = " ++ fmtF64 (op.calculate a b)))))) ++ "\n"] ∧
    do_the_math_statically Add.mk a b =
      [("Static dispatch: " ++
        (fmtF64 a ++ (Operation.name Add.mk ++
          (fmtF64 b ++ (" = " ++ fmtF64 (Operation.calculate Add.mk a b)))))) ++ "\n"] ∧
    do_the_math_statically Mul.mk a b =
      [("Static dispatch: " ++
        (fmtF64 a ++ (Operation.name Mul.mk ++
          (fmtF64 b ++ (" = " ++ fmtF64 (Operation.calculate Mul.mk a b)))))) ++ "\n"] :=
  ⟨rfl, rfl, rfl⟩

/-- Claim C6: calling either invoker twice with the same variant and the same
operands emits two byte-identical output lines: the invokers are
deterministic functions of the variant and operands, with no state between
calls. -/
theorem invoker_deterministic (op : DynOperation) (a b : F64) :
    (∃ l, do_the_math_dynamically op a b ++ do_the_math_dynamically op a b = [l, l]) ∧
    (∃ l, do_the_math_statically Add.mk a b ++ do_the_math_statically Add.mk a b = [l, l]) ∧
    (∃ l, do_the_math_statically Mul.mk a b ++ do_the_math_statically Mul.mk a b = [l, l]) :=
  ⟨⟨_, rfl⟩, ⟨_, rfl⟩, ⟨_, rfl⟩⟩

/-- Claim C7: each call to either invoker performs exactly one formatted
write to standard output (the emitted output is a single line); the model's
invokers are pure functions of the operation value and operands, so no input
is mutated and no state persists beyond that write. -/
theorem invoker_single_write (op : DynOperation) (a b : F64) :
    (do_the_math_dynamically op a b).length = 1 ∧
    (do_the_math_statically Add.mk a b).length = 1 ∧
    (do_the_math_statically Mul.mk a b).length = 1 :=
  ⟨rfl, rfl, rfl⟩

/-- Claim C8: `calculate` is total — on every binary64 input, including NaN
and the infinities, each variant's `calculate` is the total IEEE-754
operation (NaN operands propagate to a NaN result rather than failing) — and
the program has no failure path: in every invocation context the run
completes with exit code 0 after emitting its four lines. -/
theorem compute_total_program_succeeds (args : List String)
    (env : List (String × String)) :
    (run args env).exitCode = 0 ∧ (run args env).stdout.length = 4 ∧
    (∀ a b : F64, Operation.calculate Add.mk a b = f64add a b ∧
      Operation.calculate Mul.mk a b = f64mul a b) ∧
    (∀ b : F64, Operation.calculate Add.mk F64.nan b = F64.nan ∧
      Operation.calculate Mul.mk F64.nan b = F64.nan) :=
  ⟨rfl, rfl, fun _ _ => ⟨rfl, rfl⟩, fun b => by cases b <;> exact ⟨rfl, rfl⟩⟩

/-- Claim C9: the program's observable behaviour is independent of its
invocation context: any two runs, whatever their command-line arguments and
environments, produce the identical outcome (same standard output, same exit
code), because `main` reads neither. -/
theorem output_independent_of_invocation (args1 : List String)
    (env1 : List (String × String)) (args2 : List String)
    (env2 : List (String × String)) :
    run args1 env1 = run args2 env2 :=
  rfl

/-- Claim C10: both variants' `calculate` operations are commutative: for all
binary64 operands `a` and `b`, `Add`'s `calculate a b` equals
`calculate b a` and likewise for `Mul`, under the IEEE-754 binary64
semantics of the model. -/
theorem calculate_commutative (a b : F64) :
    Operation.calculate Add.mk a b = Operation.calculate Add.mk b a ∧
      Operation.calculate Mul.mk a b = Operation.calculate Mul.mk b a :=
  ⟨f64add_comm a b, f64mul_comm a b⟩

end Dispatch
